import Mathlib

/-!
Shallow embedding of the prompt-assembly and model-invocation pipeline of
`backend/server.py` (the analyze-recording endpoint and its Gemini call
helper), together with theorems settling the specification claims about it.

The embedding models Python data as Lean structures, Python string
truthiness explicitly, the outbound HTTP layer as a function from model
identifier and payload to a response, and each raised `HTTPException` as a
constructor of an error type.  Log output and the sequence of outbound
calls are returned alongside the result so that properties about them can
be stated.
-/

set_option maxRecDepth 8000

namespace Whiskr

/-- Python truthiness of an optional string: `None` and the empty string are
falsy, every other string is truthy. -/
def optTruthy : Option String → Bool
  | none => false
  | some s => !(s == "")

/-- Python `x or d` on an optional string field: a falsy value (absent field
or empty string) yields the default `d`. -/
def pyOr (x : Option String) (d : String) : String :=
  match x with
  | none => d
  | some s => if s = "" then d else s

/-- Python f-string interpolation of an optional string: `None` prints as
the literal text `None`. -/
def optShow : Option String → String
  | none => "None"
  | some s => s

/-- Model of pydantic `PatientInfo` (server.py lines 47 to 50). -/
structure PatientInfo where
  patientId : Option String := none
  name : Option String := none
  species : Option String := none
  deriving DecidableEq

/-- Model of pydantic `PreviousMessage` (server.py lines 52 to 54). -/
structure PreviousMessage where
  role : String
  content : String
  deriving DecidableEq

/-- Model of pydantic `AnalyzeRecordingRequest` (server.py lines 56 to 61). -/
structure AnalyzeRecordingRequest where
  transcription : Option String := none
  patientInfo : Option PatientInfo := none
  consultId : Option String := none
  followUpQuestion : Option String := none
  previousMessages : Option (List PreviousMessage) := none
  deriving DecidableEq

/-- One part of a Gemini candidate content; the `text` key may be absent. -/
structure GeminiPart where
  text : Option String := none
  deriving DecidableEq

/-- Content of a Gemini candidate; the `parts` key may be absent. -/
structure GeminiContent where
  parts : Option (List GeminiPart) := none
  deriving DecidableEq

/-- One Gemini candidate; the `content` key may be absent. -/
structure GeminiCandidate where
  content : Option GeminiContent := none
  deriving DecidableEq

/-- Parsed JSON body of a Gemini response; the `candidates` key may be
absent. -/
structure GeminiBody where
  candidates : Option (List GeminiCandidate) := none
  deriving DecidableEq

/-- An HTTP response from the provider: status code, raw body text (used by
the error log), and the parsed JSON body (used by text extraction). -/
structure HttpResponse where
  status : Nat
  text : String := ""
  body : GeminiBody := {}
  deriving DecidableEq

/-- The fixed generation configuration sent with every provider request
(server.py lines 151 to 156); the float constants are modelled as
rationals. -/
structure GenerationConfig where
  temperature : Rat
  topK : Nat
  topP : Rat
  maxOutputTokens : Nat
  deriving DecidableEq

def fixedGenerationConfig : GenerationConfig :=
  { temperature := 7/10, topK := 40, topP := 95/100, maxOutputTokens := 2048 }

/-- The provider request body (server.py lines 144 to 157): a single
user-role text part holding the combined prompt, plus the fixed generation
configuration. -/
structure GeminiPayload where
  contentsText : String
  config : GenerationConfig
  deriving DecidableEq

/-- The payload built by `call_gemini_api`: the system prompt and the user
prompt joined by a blank line (server.py line 148). -/
def mkPayload (system_prompt prompt : String) : GeminiPayload :=
  { contentsText := system_prompt ++ "\n\n" ++ prompt, config := fixedGenerationConfig }

/-- Primary model identifier (server.py line 142). -/
def primaryModel : String := "gemini-2.0-flash-lite"

/-- Fallback model identifier (server.py line 169). -/
def fallbackModel : String := "gemini-1.5-flash"

/-- The `HTTPException` failures raised by the pipeline, one constructor per
distinct raise site. -/
inductive ApiError where
  | configError
  | providerError (status : Nat)
  | emptyResponse
  | noAnalysis
  deriving DecidableEq

/-- The detail string carried by each `HTTPException` (server.py lines 140,
173, 175, 187, 240). -/
def ApiError.detail : ApiError → String
  | .configError => "Gemini API key not configured"
  | .providerError status => "AI API error: " ++ toString status
  | .emptyResponse => "No response generated from AI"
  | .noAnalysis => "No analysis generated"

/-- Response text extraction (server.py lines 180 to 185): only the first
candidate and its first part are consulted; any missing key on that path
yields nothing. -/
def extractText (data : GeminiBody) : Option String :=
  match data.candidates with
  | some (candidate :: _) =>
    match candidate.content with
    | some content =>
      match content.parts with
      | some (part :: _) => part.text
      | some [] => none
      | none => none
    | none => none
  | some [] => none
  | none => none

/-- Turning an extraction outcome into the invoker result: a missing text
path raises the empty-response error (server.py line 187). -/
def extractOrEmpty (resp : HttpResponse) : Except ApiError String :=
  match extractText resp.body with
  | some t => .ok t
  | none => .error .emptyResponse

/-- Result, ordered list of outbound calls (by model identifier), and log
lines produced by one run of `call_gemini_api`. -/
structure InvokeOutcome where
  result : Except ApiError String
  calls : List String
  logs : List String

/-- Model of `call_gemini_api` (server.py lines 136 to 187).  The outbound
HTTP POST is modelled by `provider`, a function from model identifier and
payload to response.  A falsy API key fails immediately; a non-success
primary status is logged and, when it is 429 or 404, retried exactly once
against the fallback model with the identical payload; any other
non-success status is fatal.  The response reaching extraction is the last
one received. -/
def call_gemini_api (apiKey : Option String)
    (provider : String → GeminiPayload → HttpResponse)
    (prompt system_prompt : String) : InvokeOutcome :=
  if optTruthy apiKey then
    let payload := mkPayload system_prompt prompt
    let resp := provider primaryModel payload
    if resp.status ≠ 200 then
      let errorLog := "Gemini API error: " ++ toString resp.status ++ " - " ++ resp.text
      if resp.status = 429 ∨ resp.status = 404 then
        let resp2 := provider fallbackModel payload
        if resp2.status ≠ 200 then
          { result := .error (.providerError resp2.status),
            calls := [primaryModel, fallbackModel], logs := [errorLog] }
        else
          { result := extractOrEmpty resp2,
            calls := [primaryModel, fallbackModel], logs := [errorLog] }
      else
        { result := .error (.providerError resp.status),
          calls := [primaryModel], logs := [errorLog] }
    else
      { result := extractOrEmpty resp, calls := [primaryModel], logs := [] }
  else
    { result := .error .configError, calls := [], logs := [] }

/-- The fixed Atlas system prompt (server.py lines 84 to 133). -/
def ATLAS_SYSTEM_PROMPT : String :=
  "You are Atlas, an AI veterinary assistant. Your role is to analyze case recordings and provide clinical insights.\n\nYour style:\n- Professional and clinical\n- Use clear, precise medical language\n- Stick strictly to case-relevant information only\n- Do NOT include greetings, encouraging notes, or sign-offs\n- Do NOT ask follow-up questions at the end of responses\n- Never include salutations or closing remarks\n- Output only clinical information relevant to the case\n\n"
  ++ "IMPORTANT FORMATTING RULES:\n- Do NOT use markdown formatting (no **, *, #, ##, ### symbols)\n- Do NOT use asterisks or underscores for emphasis\n- Use numbered lists (1. 2. 3.) for sequential items\n- Use plain bullet points (•) for lists, not dashes or asterisks\n- Use plain text with clear section headers followed by colons\n- Use line breaks to separate sections\n- Keep formatting simple and clean\n\n"
  ++ "When analyzing a case initially (no specific request):\n\nCase Summary:\nProvide a clear, concise summary of the key findings from the recording. Include:\n• Patient presentation and chief complaint\n• Relevant history mentioned\n• Physical examination findings noted\n• Any vitals or measurements mentioned\n• Owner concerns or constraints\n\nKeep it informative but brief. Do NOT include differential diagnoses, recommended diagnostics, treatment plans, or procedures in this initial summary.\n\n"
  ++ "When asked for Differential Diagnoses:\nProvide 3-5 differential diagnoses ranked by likelihood. For each diagnosis:\n• The diagnosis name\n• A brief explanation of why it fits this case\n\nWhen asked about a specific differential\x27s reasoning and treatment:\nProvide:\n• REASON: Why this diagnosis is being considered\n• TREATMENT PLAN: Recommended diagnostics, medications, and monitoring\n\n"
  ++ "When asked for Treatment Plan:\nProvide a comprehensive treatment plan including:\n1. Medications (drug name, dose, route, frequency, duration)\n2. Diet & Nutrition recommendations\n3. Activity Restrictions\n4. Home Care Instructions\n5. Follow-up Schedule\n6. Warning Signs to watch for"

/-- Patient context block (server.py lines 196 to 204): empty when
`patientInfo` is absent, otherwise one line per field with falsy fields
replaced by their placeholders. -/
def patient_context (pinfo : Option PatientInfo) : String :=
  match pinfo with
  | none => ""
  | some pi =>
    "\nPatient Information:\n• Patient ID: " ++ pyOr pi.patientId "N/A" ++
      "\n• Name: " ++ pyOr pi.name "Unknown" ++
      "\n• Species: " ++ pyOr pi.species "Unknown" ++ "\n"

/-- Initial-analysis user message (server.py lines 212 to 217). -/
def initial_user_content (transcription : Option String) : String :=
  "Please analyze this veterinary case recording and provide a case summary only:\n\nRecording Transcription:\n"
    ++ pyOr transcription "No transcription available"
    ++ "\n\nProvide a helpful case summary based on the recording. Do not include differential diagnoses, treatment plans, or procedures - only summarize the key findings."

/-- Context snippet of the follow-up branch (server.py lines 220 to 222):
present only for a truthy transcription, truncated to 500 characters with an
ellipsis marker when longer. -/
def context_snippet : Option String → String
  | none => ""
  | some t =>
    if t = "" then ""
    else
      "[Context from recording: " ++ t.take 500 ++
        (if t.length > 500 then "..." else "") ++ "]\n\n"

/-- Follow-up user message (server.py line 224). -/
def followup_user_content (transcription : Option String) (followUpQuestion : String) : String :=
  context_snippet transcription ++ followUpQuestion

/-- User message before history injection (server.py lines 210 to 224);
`if not request.followUpQuestion` sends both the absent and the empty
follow-up question to the initial-analysis branch. -/
def base_user_content (req : AnalyzeRecordingRequest) : String :=
  match req.followUpQuestion with
  | none => initial_user_content req.transcription
  | some fu =>
    if fu = "" then initial_user_content req.transcription
    else followup_user_content req.transcription fu

/-- One rendered history line (server.py lines 230 to 231): role label,
content truncated to 200 characters with an ellipsis marker when longer,
then a newline. -/
def render_message (msg : PreviousMessage) : String :=
  (if msg.role = "user" then "User" else "Atlas") ++ ": " ++ msg.content.take 200 ++
    (if msg.content.length > 200 then "..." else "") ++ "\n"

/-- Python slice `previousMessages[-4:]` (server.py line 229). -/
def lastFour (msgs : List PreviousMessage) : List PreviousMessage :=
  msgs.drop (msgs.length - 4)

/-- History block built by the accumulation loop (server.py lines 228 to
231). -/
def history_context (msgs : List PreviousMessage) : String :=
  (lastFour msgs).foldl (fun acc msg => acc ++ render_message msg) "\n\nPrevious conversation:\n"

/-- Full user message (server.py lines 210 to 232): history is prepended
only when `previousMessages` is present and non-empty. -/
def user_content (req : AnalyzeRecordingRequest) : String :=
  let base := base_user_content req
  match req.previousMessages with
  | none => base
  | some msgs =>
    if msgs.length > 0 then
      history_context msgs ++ "\n\nCurrent question:\n" ++ base
    else base

/-- Result, outbound calls and log lines of one run of the endpoint. -/
structure AnalyzeOutcome where
  result : Except ApiError String
  calls : List String
  logs : List String

/-- Model of the analyze-recording endpoint (server.py lines 190 to 250):
builds the system message and user message, logs the start line, invokes
the provider, rejects an empty reply text, and logs the success line. -/
def analyze_recording (apiKey : Option String)
    (provider : String → GeminiPayload → HttpResponse)
    (req : AnalyzeRecordingRequest) : AnalyzeOutcome :=
  let system_message := ATLAS_SYSTEM_PROMPT ++ patient_context req.patientInfo
  let uc := user_content req
  let startLog := "[analyze-recording] Sending request for consult: " ++ optShow req.consultId
  let inv := call_gemini_api apiKey provider uc system_message
  match inv.result with
  | .error e => { result := .error e, calls := inv.calls, logs := startLog :: inv.logs }
  | .ok t =>
    if t = "" then
      { result := .error .noAnalysis, calls := inv.calls, logs := startLog :: inv.logs }
    else
      { result := .ok t, calls := inv.calls,
        logs := startLog :: (inv.logs ++
          ["[analyze-recording] Analysis generated successfully for consult: " ++ optShow req.consultId]) }

/-- Rendering of one history turn as the specification words it: content
longer than 200 characters is replaced by its first 200 characters plus an
ellipsis marker, shorter content is rendered unmodified. -/
def spec_render_turn (msg : PreviousMessage) : String :=
  (if msg.role = "user" then "User" else "Atlas") ++ ": " ++
    (if msg.content.length > 200 then msg.content.take 200 ++ "..." else msg.content) ++ "\n"

/-- A 501-character transcription used as concrete long input. -/
def longTranscript : String := String.mk (List.replicate 501 'a')

/-! ## Helper lemmas -/

theorem take_of_not_gt (s : String) (n : Nat) (h : ¬ s.length > n) : s.take n = s := by
  apply String.ext
  rw [String.data_take]
  exact List.take_of_length_le (Nat.le_of_not_lt h)

theorem render_message_eq_spec (msg : PreviousMessage) :
    render_message msg = spec_render_turn msg := by
  unfold render_message spec_render_turn
  by_cases h : msg.content.length > 200
  · simp only [h, if_true, String.append_assoc]
  · simp only [h, if_false, take_of_not_gt _ _ h, String.append_empty]

theorem str_foldl_init : ∀ (l : List String) (init : String),
    l.foldl (fun r s => r ++ s) init = init ++ l.foldl (fun r s => r ++ s) ""
  | [], init => by simp [String.append_empty]
  | x :: l, init => by
    rw [List.foldl_cons, List.foldl_cons, str_foldl_init l (init ++ x),
      str_foldl_init l ("" ++ x), String.empty_append, String.append_assoc]

theorem join_cons (a : String) (l : List String) :
    String.join (a :: l) = a ++ String.join l := by
  show (a :: l).foldl (fun r s => r ++ s) "" = a ++ l.foldl (fun r s => r ++ s) ""
  rw [List.foldl_cons, String.empty_append, str_foldl_init]

theorem foldl_render_eq (l : List PreviousMessage) (init : String) :
    l.foldl (fun acc msg => acc ++ render_message msg) init
      = init ++ String.join (l.map render_message) := by
  induction l generalizing init with
  | nil => simp [String.join, String.append_empty]
  | cons x l ih => rw [List.foldl_cons, List.map_cons, ih, join_cons, String.append_assoc]

/-! ## Claims about the model invoker -/

/-- C1: if the provider call on the primary model returns a rate-limit (429)
or model-not-found (404) status and the subsequent call on the fallback
model succeeds with an extractable text, then for every prompt the invoker
returns the text of the fallback response and makes exactly the two
outbound calls, primary then fallback. -/
theorem fallback_retry_law (apiKey : String) (hk : apiKey ≠ "")
    (provider : String → GeminiPayload → HttpResponse) (prompt system_prompt t : String)
    (h1 : (provider primaryModel (mkPayload system_prompt prompt)).status = 429 ∨
          (provider primaryModel (mkPayload system_prompt prompt)).status = 404)
    (h2 : (provider fallbackModel (mkPayload system_prompt prompt)).status = 200)
    (h3 : extractText (provider fallbackModel (mkPayload system_prompt prompt)).body = some t) :
    (call_gemini_api (some apiKey) provider prompt system_prompt).result = .ok t ∧
    (call_gemini_api (some apiKey) provider prompt system_prompt).calls
      = [primaryModel, fallbackModel] := by
  rcases h1 with h1 | h1 <;>
    constructor <;>
      simp [call_gemini_api, optTruthy, hk, h1, h2, extractOrEmpty, h3]

/-- C1 witness: a concrete provider that rate-limits the primary model and
answers `hello` on the fallback model. -/
theorem fallback_retry_law_witness :
    (call_gemini_api (some "key")
      (fun m _ => if m = fallbackModel
        then { status := 200, body := ⟨some [⟨some ⟨some [⟨some "hello"⟩]⟩⟩]⟩ }
        else { status := 429, text := "rate limited", body := ⟨some []⟩ })
      "p" "s").result = .ok "hello" ∧
    (call_gemini_api (some "key")
      (fun m _ => if m = fallbackModel
        then { status := 200, body := ⟨some [⟨some ⟨some [⟨some "hello"⟩]⟩⟩]⟩ }
        else { status := 429, text := "rate limited", body := ⟨some []⟩ })
      "p" "s").calls = [primaryModel, fallbackModel] :=
  fallback_retry_law "key" (by decide) _ "p" "s" "hello"
    (Or.inl (by decide)) (by decide) (by decide)

/-- C2: if the provider call on the primary model returns any non-success
status other than 429 or 404, the invoker makes exactly one outbound call,
never touches the fallback model, and fails with the provider error carrying
that status. -/
theorem fatal_error_law (apiKey : String) (hk : apiKey ≠ "")
    (provider : String → GeminiPayload → HttpResponse) (prompt system_prompt : String)
    (hs : (provider primaryModel (mkPayload system_prompt prompt)).status ≠ 200)
    (h429 : (provider primaryModel (mkPayload system_prompt prompt)).status ≠ 429)
    (h404 : (provider primaryModel (mkPayload system_prompt prompt)).status ≠ 404) :
    (call_gemini_api (some apiKey) provider prompt system_prompt).result
      = .error (.providerError (provider primaryModel (mkPayload system_prompt prompt)).status) ∧
    (call_gemini_api (some apiKey) provider prompt system_prompt).calls = [primaryModel] ∧
    fallbackModel ∉ (call_gemini_api (some apiKey) provider prompt system_prompt).calls := by
  have hmain : call_gemini_api (some apiKey) provider prompt system_prompt =
      { result := .error (.providerError
          (provider primaryModel (mkPayload system_prompt prompt)).status),
        calls := [primaryModel],
        logs := ["Gemini API error: " ++
          toString (provider primaryModel (mkPayload system_prompt prompt)).status ++ " - " ++
          (provider primaryModel (mkPayload system_prompt prompt)).text] } := by
    simp [call_gemini_api, optTruthy, hk, hs, h429, h404]
  rw [hmain]
  refine ⟨rfl, rfl, ?_⟩
  show fallbackModel ∉ [primaryModel]
  decide

/-- C2 witness: a concrete provider answering a malformed-request status 400
on every call. -/
theorem fatal_error_law_witness :
    (call_gemini_api (some "key") (fun _ _ => { status := 400, text := "bad request" })
      "p" "s").result = .error (.providerError 400) ∧
    (call_gemini_api (some "key") (fun _ _ => { status := 400, text := "bad request" })
      "p" "s").calls = [primaryModel] ∧
    fallbackModel ∉ (call_gemini_api (some "key")
      (fun _ _ => { status := 400, text := "bad request" }) "p" "s").calls := by
  have h := fatal_error_law "key" (by decide)
    (fun _ _ => { status := 400, text := "bad request" }) "p" "s"
    (by decide) (by decide) (by decide)
  exact h

/-- C7: a transport-successful provider response whose body has no
extractable text on the first-candidate path makes the invoker fail with
the empty-response error after its single call, and that error is a
different condition from every transport-level provider error; in
particular a body with an empty candidates list extracts nothing. -/
theorem empty_response_law (apiKey : String) (hk : apiKey ≠ "")
    (provider : String → GeminiPayload → HttpResponse) (prompt system_prompt : String)
    (h200 : (provider primaryModel (mkPayload system_prompt prompt)).status = 200)
    (hnone : extractText (provider primaryModel (mkPayload system_prompt prompt)).body = none) :
    (call_gemini_api (some apiKey) provider prompt system_prompt).result
      = .error .emptyResponse ∧
    (call_gemini_api (some apiKey) provider prompt system_prompt).calls = [primaryModel] ∧
    (∀ status, ApiError.emptyResponse ≠ ApiError.providerError status) ∧
    extractText ⟨some []⟩ = none := by
  refine ⟨?_, ?_, fun status h => ApiError.noConfusion h, rfl⟩ <;>
    simp [call_gemini_api, optTruthy, hk, h200, extractOrEmpty, hnone]

/-- C7 witness: a concrete provider answering status 200 with the body
`candidates: []`. -/
theorem empty_response_law_witness :
    (call_gemini_api (some "key") (fun _ _ => { status := 200, body := ⟨some []⟩ })
      "p" "s").result = .error .emptyResponse ∧
    (call_gemini_api (some "key") (fun _ _ => { status := 200, body := ⟨some []⟩ })
      "p" "s").calls = [primaryModel] ∧
    (∀ status, ApiError.emptyResponse ≠ ApiError.providerError status) ∧
    extractText ⟨some []⟩ = none :=
  empty_response_law "key" (by decide) (fun _ _ => { status := 200, body := ⟨some []⟩ })
    "p" "s" (by decide) (by decide)

/-- C8: with the provider API key absent from the environment the invoker
fails with the configuration error, makes no outbound call at all, and so
never retries. -/
theorem missing_key_law (provider : String → GeminiPayload → HttpResponse)
    (prompt system_prompt : String) :
    (call_gemini_api none provider prompt system_prompt).result = .error .configError ∧
    (call_gemini_api none provider prompt system_prompt).calls = [] ∧
    (call_gemini_api none provider prompt system_prompt).logs = [] :=
  ⟨rfl, rfl, rfl⟩

/-! ## Claims about prompt assembly -/

/-- C3: when more than 4 previous messages are supplied, the rendered
history block is the header followed by exactly the last 4 turns in their
original order, each rendered with its content truncated to 200 characters
plus an ellipsis marker when longer and unmodified when not. -/
theorem history_last_four_truncated (msgs : List PreviousMessage) (h : msgs.length > 4) :
    (msgs.drop (msgs.length - 4)).length = 4 ∧
    msgs.drop (msgs.length - 4) <:+ msgs ∧
    history_context msgs =
      "\n\nPrevious conversation:\n" ++
        String.join ((msgs.drop (msgs.length - 4)).map spec_render_turn) := by
  refine ⟨?_, List.drop_suffix _ _, ?_⟩
  · rw [List.length_drop]; omega
  · unfold history_context lastFour
    rw [foldl_render_eq, show render_message = spec_render_turn from funext render_message_eq_spec]

/-- C3 witness: a concrete conversation of 5 turns. -/
theorem history_last_four_truncated_witness :
    (([⟨"user", "q1"⟩, ⟨"assistant", "a1"⟩, ⟨"user", "q2"⟩, ⟨"assistant", "a2"⟩,
        ⟨"user", "q3"⟩] : List PreviousMessage).drop
      (([⟨"user", "q1"⟩, ⟨"assistant", "a1"⟩, ⟨"user", "q2"⟩, ⟨"assistant", "a2"⟩,
        ⟨"user", "q3"⟩] : List PreviousMessage).length - 4)).length = 4 ∧
    ([⟨"user", "q1"⟩, ⟨"assistant", "a1"⟩, ⟨"user", "q2"⟩, ⟨"assistant", "a2"⟩,
        ⟨"user", "q3"⟩] : List PreviousMessage).drop
      (([⟨"user", "q1"⟩, ⟨"assistant", "a1"⟩, ⟨"user", "q2"⟩, ⟨"assistant", "a2"⟩,
        ⟨"user", "q3"⟩] : List PreviousMessage).length - 4)
      <:+ [⟨"user", "q1"⟩, ⟨"assistant", "a1"⟩, ⟨"user", "q2"⟩, ⟨"assistant", "a2"⟩,
        ⟨"user", "q3"⟩] ∧
    history_context [⟨"user", "q1"⟩, ⟨"assistant", "a1"⟩, ⟨"user", "q2"⟩, ⟨"assistant", "a2"⟩,
        ⟨"user", "q3"⟩] =
      "\n\nPrevious conversation:\n" ++
        String.join ((([⟨"user", "q1"⟩, ⟨"assistant", "a1"⟩, ⟨"user", "q2"⟩, ⟨"assistant", "a2"⟩,
          ⟨"user", "q3"⟩] : List PreviousMessage).drop
            (([⟨"user", "q1"⟩, ⟨"assistant", "a1"⟩, ⟨"user", "q2"⟩, ⟨"assistant", "a2"⟩,
              ⟨"user", "q3"⟩] : List PreviousMessage).length - 4)).map spec_render_turn) :=
  history_last_four_truncated _ (by decide)

/-- C4: with the follow-up question absent the built user content embeds
the literal transcription when it is present and non-empty, and the literal
placeholder when it is absent or empty, between the fixed summary-only
instructions that exclude differential diagnoses and treatment plans. -/
theorem initial_analysis_content (req : AnalyzeRecordingRequest)
    (hfu : req.followUpQuestion = none) :
    ((req.transcription = none ∨ req.transcription = some "") →
      base_user_content req =
        "Please analyze this veterinary case recording and provide a case summary only:\n\nRecording Transcription:\n"
          ++ "No transcription available"
          ++ "\n\nProvide a helpful case summary based on the recording. Do not include differential diagnoses, treatment plans, or procedures - only summarize the key findings.") ∧
    (∀ t, req.transcription = some t → t ≠ "" →
      base_user_content req =
        "Please analyze this veterinary case recording and provide a case summary only:\n\nRecording Transcription:\n"
          ++ t
          ++ "\n\nProvide a helpful case summary based on the recording. Do not include differential diagnoses, treatment plans, or procedures - only summarize the key findings.") := by
  constructor
  · rintro (ht | ht) <;> simp [base_user_content, hfu, initial_user_content, pyOr, ht]
  · intro t ht hne
    simp [base_user_content, hfu, initial_user_content, pyOr, ht, hne]

/-- C4 witness: a concrete request carrying only a transcription. -/
theorem initial_analysis_content_witness :
    base_user_content { transcription := some "Dog presents with vomiting" } =
      "Please analyze this veterinary case recording and provide a case summary only:\n\nRecording Transcription:\n"
        ++ "Dog presents with vomiting"
        ++ "\n\nProvide a helpful case summary based on the recording. Do not include differential diagnoses, treatment plans, or procedures - only summarize the key findings." :=
  (initial_analysis_content _ rfl).2 "Dog presents with vomiting" rfl (by decide)

/-- C5 counterexample: with the follow-up question present but equal to the
empty string and a 501-character transcription, the built user content is
the initial-analysis message: it does not even begin with the
context-snippet marker, and it is not the context snippet followed by the
follow-up text. -/
theorem followup_empty_question_counterexample :
    longTranscript.length > 500 ∧
    base_user_content { transcription := some longTranscript, followUpQuestion := some "" }
      = initial_user_content (some longTranscript) ∧
    ¬ ("[Context from recording: ".data <+:
        (base_user_content { transcription := some longTranscript, followUpQuestion := some "" }).data) ∧
    base_user_content { transcription := some longTranscript, followUpQuestion := some "" }
      ≠ "[Context from recording: " ++ longTranscript.take 500 ++ "..." ++ "]\n\n" ++ "" := by
  have hpre : ¬ ("[Context from recording: ".data <+: (base_user_content { transcription := some longTranscript, followUpQuestion := some "" }).data) := by decide
  refine ⟨by decide, rfl, hpre, fun h => hpre ?_⟩
  rw [h]
  refine ⟨(longTranscript.take 500).data ++ "...".data ++ "]\n\n".data ++ "".data, ?_⟩
  simp [String.data_append, List.append_assoc]

/-- C5 amended: for every request whose follow-up question is present and
non-empty and whose transcription is longer than 500 characters, the built
user content is exactly the context snippet holding the first 500
characters of the transcription plus an ellipsis marker, followed by the
raw follow-up question text. -/
theorem followup_snippet_truncation (req : AnalyzeRecordingRequest) (fu t : String)
    (hfu : req.followUpQuestion = some fu) (hne : fu ≠ "")
    (ht : req.transcription = some t) (hlen : t.length > 500) :
    base_user_content req =
      "[Context from recording: " ++ t.take 500 ++ "..." ++ "]\n\n" ++ fu := by
  have htne : t ≠ "" := fun h => by rw [h] at hlen; exact absurd hlen (by decide)
  simp [base_user_content, hfu, hne, followup_user_content, context_snippet, ht, htne, hlen]

/-- C5 amended witness: a concrete 501-character transcription and a
concrete follow-up question. -/
theorem followup_snippet_truncation_witness :
    base_user_content { transcription := some longTranscript, followUpQuestion := some "What next" } =
      "[Context from recording: " ++ longTranscript.take 500 ++ "..." ++ "]\n\n" ++ "What next" :=
  followup_snippet_truncation _ "What next" longTranscript rfl (by decide) rfl (by decide)

/-- C6: the patient-context block renders one line per field; a missing
patient ID renders as the literal N/A and a missing name or species as the
literal Unknown, while present non-empty fields render verbatim. -/
theorem patient_block_placeholders (p n s : String) (hp : p ≠ "") (hn : n ≠ "") (hs : s ≠ "") :
    patient_context (some { patientId := none, name := some n, species := some s })
      = "\nPatient Information:\n• Patient ID: N/A\n• Name: " ++ n ++ "\n• Species: " ++ s ++ "\n" ∧
    patient_context (some { patientId := some p, name := none, species := some s })
      = "\nPatient Information:\n• Patient ID: " ++ p ++ "\n• Name: Unknown\n• Species: " ++ s ++ "\n" ∧
    patient_context (some { patientId := some p, name := some n, species := none })
      = "\nPatient Information:\n• Patient ID: " ++ p ++ "\n• Name: " ++ n ++ "\n• Species: Unknown\n" := by
  refine ⟨?_, ?_, ?_⟩
  · simp [patient_context, pyOr, hn, hs]
  · simp [patient_context, pyOr, hp, hs]
    apply String.ext
    simp only [String.data_append, List.append_assoc]
    congr 1
  · simp [patient_context, pyOr, hp, hn]
    apply String.ext
    simp only [String.data_append, List.append_assoc]
    congr 1

/-- C6 witness: the Rex scenario, with the patient ID absent. -/
theorem patient_block_placeholders_witness :
    patient_context (some { patientId := none, name := some "Rex", species := some "Canine" })
      = "\nPatient Information:\n• Patient ID: N/A\n• Name: Rex\n• Species: Canine\n" := by
  have h := (patient_block_placeholders "x" "Rex" "Canine" (by decide) (by decide) (by decide)).1
  rw [h]
  try decide

/-- C10: an empty follow-up question takes the initial-analysis branch
exactly as an absent one does, and the follow-up branch is reached only by
a non-empty follow-up question. -/
theorem empty_followup_is_initial (req : AnalyzeRecordingRequest) :
    (req.followUpQuestion = some "" →
      base_user_content req = initial_user_content req.transcription ∧
      base_user_content req = base_user_content { req with followUpQuestion := none }) ∧
    (∀ fu, req.followUpQuestion = some fu → fu ≠ "" →
      base_user_content req = followup_user_content req.transcription fu) := by
  constructor
  · intro h
    constructor <;> simp [base_user_content, h]
  · intro fu h hne
    simp [base_user_content, h, hne]

/-- C10 witness: a concrete request with an empty follow-up question. -/
theorem empty_followup_is_initial_witness :
    base_user_content { transcription := some "hi", followUpQuestion := some "" }
      = initial_user_content (some "hi") ∧
    base_user_content { transcription := some "hi", followUpQuestion := some "" }
      = base_user_content { transcription := some "hi", followUpQuestion := none } :=
  (empty_followup_is_initial { transcription := some "hi", followUpQuestion := some "" }).1 rfl

/-! ## Claims about logging -/

/-- C9 counterexample: on a non-success primary status the pipeline logs
the provider response body verbatim; at this concrete input the second log
line contains the provider response text, so the log output is not limited
to status information and the consult identifier. -/
theorem log_leak_counterexample :
    (analyze_recording (some "k") (fun _ _ => { status := 500, text := "provider-error-body" })
        { consultId := some "c1", transcription := some "SECRET" }).logs
      = ["[analyze-recording] Sending request for consult: c1",
         "Gemini API error: 500 - provider-error-body"] ∧
    "provider-error-body".data <:+: "Gemini API error: 500 - provider-error-body".data := by
  exact ⟨rfl, by decide⟩

/-- C9 amended: apart from the provider error body logged on a non-success
primary status, the log lines depend only on the consult identifier and the
provider responses: two requests with the same consult identifier produce
identical log output whenever the provider responses do not depend on the
payload, so no request message content (transcription, follow-up question,
history, patient data) ever reaches the logs through the pipeline itself. -/
theorem logs_independent_of_message_content (apiKey : Option String)
    (provider : String → GeminiPayload → HttpResponse)
    (hp : ∀ m a b, provider m a = provider m b)
    (r1 r2 : AnalyzeRecordingRequest) (hc : r1.consultId = r2.consultId) :
    (analyze_recording apiKey provider r1).logs = (analyze_recording apiKey provider r2).logs := by
  have hcall : call_gemini_api apiKey provider (user_content r1)
        (ATLAS_SYSTEM_PROMPT ++ patient_context r1.patientInfo)
      = call_gemini_api apiKey provider (user_content r2)
        (ATLAS_SYSTEM_PROMPT ++ patient_context r2.patientInfo) := by
    simp only [call_gemini_api]
    rw [hp primaryModel
          (mkPayload (ATLAS_SYSTEM_PROMPT ++ patient_context r1.patientInfo) (user_content r1))
          (mkPayload (ATLAS_SYSTEM_PROMPT ++ patient_context r2.patientInfo) (user_content r2)),
        hp fallbackModel
          (mkPayload (ATLAS_SYSTEM_PROMPT ++ patient_context r1.patientInfo) (user_content r1))
          (mkPayload (ATLAS_SYSTEM_PROMPT ++ patient_context r2.patientInfo) (user_content r2))]
  simp only [analyze_recording]
  rw [hcall, hc]

/-- C9 amended witness: two concrete requests differing in their
transcription, sent through a payload-insensitive provider. -/
theorem logs_independent_of_message_content_witness :
    (analyze_recording (some "k")
        (fun _ _ => { status := 200, body := ⟨some [⟨some ⟨some [⟨some "ok"⟩]⟩⟩]⟩ })
        { consultId := some "c1", transcription := some "alpha" }).logs
      = (analyze_recording (some "k")
        (fun _ _ => { status := 200, body := ⟨some [⟨some ⟨some [⟨some "ok"⟩]⟩⟩]⟩ })
        { consultId := some "c1", transcription := some "beta" }).logs :=
  logs_independent_of_message_content (some "k")
    (fun _ _ => { status := 200, body := ⟨some [⟨some ⟨some [⟨some "ok"⟩]⟩⟩]⟩ })
    (fun _ _ _ => rfl) _ _ rfl

end Whiskr
